import Mathlib

/-!
# Agenda backend (`server.js`): reminder cycle, connection bootstrap, CRUD mutations

Shallow embedding of the parts of `server.js` that mutate or classify rows of the
`eventos` table, and of the `initDB` retry loop.

Modelling conventions.

* The `eventos` table is a `List Evento` in storage order.  A `SELECT ... WHERE p`
  is `List.filter p`, an `UPDATE ... WHERE p` maps over the rows, a `DELETE ... WHERE p`
  filters them out, an `INSERT` appends one row.
* A `DATETIME` value and `NOW()` are an `Int`: seconds counted from a midnight of the
  session time zone.  `DATE(t)` is the day number `t / 86400` (floor division) and
  `CURDATE()` is `DATE(NOW())`.  One run of the cycle sees one value of `NOW()`.
* What the environment decides (does a connection attempt succeed, does a storage
  statement succeed, which id does storage assign to an inserted row) is a parameter.
* Console output and storage round-trips are recorded in a trace.
-/

namespace Agenda

/-! ## Data model -/

/-- One row of the `eventos` table, with the columns `server.js` reads and writes. -/
structure Evento where
  id : Nat
  titulo : String
  descripcion : Option String
  fecha_hora : Int
  prioridad : String
  completado : Bool
  notificado : Bool
deriving DecidableEq, Repr

/-- Modelled from the spec: the table definition of `eventos` is not part of `server.js`;
the spec gives `completed (boolean, default false)`. -/
def completadoDefault : Bool := false

/-- Modelled from the spec: the table definition of `eventos` is not part of `server.js`;
the spec gives `notified (boolean, default false)`. -/
def notificadoDefault : Bool := false

/-! ## `initDB` (lines 41-77) -/

/-- Line 42: `const maxRetries = 10;` -/
def maxRetries : Nat := 10

/-- Observable steps of `initDB`, in program order. -/
inductive Paso where
  /-- Line 47: `console.log` of the attempt number. -/
  | logIntento (n max : Nat)
  /-- Line 48: `pool = mysql.createPool(dbConfig)`; the global `pool` is assigned here. -/
  | crearPool
  /-- Line 50: `await pool.getConnection()`, one connection attempt. -/
  | getConnection
  /-- Line 51: `console.log` of the success. -/
  | logExito
  /-- Line 52: `connection.release()`. -/
  | release
  /-- Line 57: `console.error` of the failed attempt. -/
  | logError (n max : Nat)
  /-- Line 60: `console.log` announcing the retry. -/
  | logReintento
  /-- Line 61: `await new Promise(resolve => setTimeout(resolve, ms))`. -/
  | esperar (ms : Nat)
  /-- Lines 63-70: the block of `console.error` lines after the last attempt. -/
  | logAgotado
deriving DecidableEq, Repr

/-- The `while (retries < maxRetries)` loop of `initDB`, entered with the given value of
`retries`.  `conecta i` tells whether the connection attempt made while `retries = i`
succeeds (a failed attempt increments `retries`, a successful one returns, so the
attempts are numbered by `retries`).  Returns the returned boolean and the trace. -/
def initDBLoop (conecta : Nat → Bool) (retries : Nat) : Bool × List Paso :=
  if retries < maxRetries then
    let pre := [Paso.logIntento (retries + 1) maxRetries, Paso.crearPool, Paso.getConnection]
    if conecta retries then
      (true, pre ++ [Paso.logExito, Paso.release])
    else
      let retries1 := retries + 1
      if retries1 < maxRetries then
        let r := initDBLoop conecta retries1
        (r.1, pre ++ [Paso.logError retries1 maxRetries, Paso.logReintento, Paso.esperar 5000]
                ++ r.2)
      else
        (false, pre ++ [Paso.logError retries1 maxRetries, Paso.logAgotado])
  else
    (false, [])
termination_by maxRetries - retries
decreasing_by
  simp only [maxRetries] at *
  omega

/-- Function `initDB` (line 41): `let retries = 0;` then the loop. -/
def initDB (conecta : Nat → Bool) : Bool × List Paso :=
  initDBLoop conecta 0

/-- Number of connection attempts in a trace. -/
def intentos (t : List Paso) : Nat :=
  t.count Paso.getConnection

/-- The suspensions of a trace, in order, with their durations in milliseconds. -/
def esperas (t : List Paso) : List Nat :=
  t.filterMap fun p => match p with
    | Paso.esperar ms => some ms
    | _ => none

/-- The connection attempts and suspensions of a trace, in order (console output and the
other steps dropped). -/
def pasosDeRed (t : List Paso) : List Paso :=
  t.filter fun p => match p with
    | Paso.getConnection => true
    | Paso.esperar _ => true
    | _ => false

/-- Value of the global `pool` (line 39, `let pool;`, initially undefined) after the steps
of a trace prefix: assigned as soon as line 48 has run once. -/
def poolAsignado (t : List Paso) : Bool :=
  t.contains Paso.crearPool

/-! ## The reminder cycle (lines 294-341) -/

/-- Calendar day of a timestamp, the SQL `DATE(t)`. -/
def DATE (t : Int) : Int := t / 86400

/-- The `WHERE` clause of lines 301-303:
`DATE(fecha_hora) = CURDATE() AND notificado = FALSE AND completado = FALSE`. -/
def esHoy (now : Int) (e : Evento) : Bool :=
  decide (DATE e.fecha_hora = DATE now) && (e.notificado == false) && (e.completado == false)

/-- The `WHERE` clause of lines 315-316:
`fecha_hora BETWEEN NOW() AND DATE_ADD(NOW(), INTERVAL 30 MINUTE) AND completado = FALSE`. -/
def esProximo (now : Int) (e : Evento) : Bool :=
  (decide (now ≤ e.fecha_hora) && decide (e.fecha_hora ≤ now + 30 * 60)) &&
    (e.completado == false)

/-- The `WHERE` clause of lines 329-331:
`fecha_hora < NOW() AND completado = FALSE AND fecha_hora >= DATE_SUB(NOW(), INTERVAL 1 HOUR)`. -/
def esPasado (now : Int) (e : Evento) : Bool :=
  decide (e.fecha_hora < now) && (e.completado == false) &&
    decide (now - 3600 ≤ e.fecha_hora)

/-- Effect of `UPDATE eventos SET notificado = TRUE WHERE id IN (ids)` on one row. -/
def marcarNotificado (ids : List Nat) (e : Evento) : Evento :=
  if ids.contains e.id then { e with notificado := true } else e

/-- Storage round-trips and console lines of one cycle, in program order. -/
inductive Efecto where
  /-- Lines 299-304: the `eventosHoy` query. -/
  | consultaHoy
  /-- Line 307. -/
  | logHoy (n : Nat)
  /-- Line 309: the bulk update. -/
  | actualizaNotificado (ids : List Nat)
  /-- Lines 313-317: the `eventosProximos` query. -/
  | consultaProximos
  /-- Line 322, with `minutosRestantes`. -/
  | logRecordatorio (titulo : String) (minutos : Int)
  /-- Lines 327-332: the `eventosPasados` query. -/
  | consultaPasados
  /-- Line 335. -/
  | logPasados (n : Nat)
  /-- Line 339: the `console.error` of the `catch`. -/
  | logErrorCiclo
deriving DecidableEq, Repr

/-- What one run of the cycle leaves behind: the table, the three result sets (empty when
the run did not reach the query) and the trace. -/
structure Salida where
  store : List Evento
  eventosHoy : List Evento
  eventosProximos : List Evento
  eventosPasados : List Evento
  traza : List Efecto
deriving DecidableEq, Repr

/-- The callback of `cron.schedule('* * * * *', ...)`.

`pool` is whether the global `pool` is assigned.  `ok k` tells whether the `k`-th storage
statement of the cycle succeeds (0: `eventosHoy` query, 1: bulk update, 2: `eventosProximos`
query, 3: `eventosPasados` query); a failing statement throws, leaves the table as it is,
and control goes to the `catch` of line 338. -/
def cronCycle (pool : Bool) (ok : Nat → Bool) (now : Int) (s : List Evento) : Salida :=
  if pool = false then
    { store := s, eventosHoy := [], eventosProximos := [], eventosPasados := [], traza := [] }
  else if ok 0 = false then
    { store := s, eventosHoy := [], eventosProximos := [], eventosPasados := [],
      traza := [Efecto.consultaHoy, Efecto.logErrorCiclo] }
  else
    let eventosHoy := s.filter (esHoy now)
    let ids := eventosHoy.map (fun e => e.id)
    let t1 := Efecto.consultaHoy ::
      (if eventosHoy.length > 0 then
        [Efecto.logHoy eventosHoy.length, Efecto.actualizaNotificado ids] else [])
    if eventosHoy.length > 0 ∧ ok 1 = false then
      { store := s, eventosHoy := eventosHoy, eventosProximos := [], eventosPasados := [],
        traza := t1 ++ [Efecto.logErrorCiclo] }
    else
      let s1 := if eventosHoy.length > 0 then s.map (marcarNotificado ids) else s
      if ok 2 = false then
        { store := s1, eventosHoy := eventosHoy, eventosProximos := [], eventosPasados := [],
          traza := t1 ++ [Efecto.consultaProximos, Efecto.logErrorCiclo] }
      else
        let eventosProximos := s1.filter (esProximo now)
        let t2 := t1 ++ Efecto.consultaProximos ::
          eventosProximos.map
            (fun e => Efecto.logRecordatorio e.titulo ((e.fecha_hora - now) / 60))
        if ok 3 = false then
          { store := s1, eventosHoy := eventosHoy, eventosProximos := eventosProximos,
            eventosPasados := [],
            traza := t2 ++ [Efecto.consultaPasados, Efecto.logErrorCiclo] }
        else
          let eventosPasados := s1.filter (esPasado now)
          { store := s1, eventosHoy := eventosHoy, eventosProximos := eventosProximos,
            eventosPasados := eventosPasados,
            traza := t2 ++ Efecto.consultaPasados ::
              (if eventosPasados.length > 0 then
                [Efecto.logPasados eventosPasados.length] else []) }

/-! ## The mutating routes (lines 103-124 and 146-206) -/

/-- The fields the routes destructure from `req.body`; `none` is an absent or `null`
field.  `fecha_hora` is the timestamp the storage layer parses the field to. -/
structure Cuerpo where
  titulo : Option String
  descripcion : Option String
  fecha_hora : Option Int
  prioridad : Option String
  completado : Option Bool
deriving DecidableEq, Repr

/-- Route `POST /api/eventos`.  `ok` tells whether the storage statement succeeds, `insertId` is
the id storage assigns to the new row.  Returns the HTTP status and the table. -/
def crearEvento (ok : Bool) (insertId : Nat) (b : Cuerpo) (s : List Evento) :
    Nat × List Evento :=
  match b.titulo, b.fecha_hora with
  | some titulo, some fecha_hora =>
    if titulo = "" then (400, s)
    else if ok = false then (500, s)
    else
      let prioridad := match b.prioridad with
        | some p => if p = "" then "normal" else p
        | none => "normal"
      (201, s ++ [{ id := insertId, titulo := titulo, descripcion := b.descripcion,
                    fecha_hora := fecha_hora, prioridad := prioridad,
                    completado := completadoDefault, notificado := notificadoDefault }])
  | _, _ => (400, s)

/-- The `SET` list of lines 153-157 on one row: `col = COALESCE(?, col)` per column. -/
def coalesceFila (b : Cuerpo) (e : Evento) : Evento :=
  { e with
    titulo := b.titulo.getD e.titulo
    descripcion := match b.descripcion with
      | some d => some d
      | none => e.descripcion
    fecha_hora := b.fecha_hora.getD e.fecha_hora
    prioridad := b.prioridad.getD e.prioridad
    completado := b.completado.getD e.completado }

/-- Route `PUT /api/eventos/:id`. -/
def actualizarEvento (ok : Bool) (id : Nat) (b : Cuerpo) (s : List Evento) :
    Nat × List Evento :=
  if ok = false then (500, s)
  else
    let s1 := s.map (fun e => if e.id = id then coalesceFila b e else e)
    if (s.filter (fun e => e.id = id)).length = 0 then (404, s1) else (200, s1)

/-- Route `POST /api/eventos/:id/completar`. -/
def completarEvento (ok : Bool) (id : Nat) (s : List Evento) : Nat × List Evento :=
  if ok = false then (500, s)
  else
    let s1 := s.map (fun e => if e.id = id then { e with completado := true } else e)
    if (s.filter (fun e => e.id = id)).length = 0 then (404, s1) else (200, s1)

/-- Route `DELETE /api/eventos/:id`. -/
def eliminarEvento (ok : Bool) (id : Nat) (s : List Evento) : Nat × List Evento :=
  if ok = false then (500, s)
  else
    let s1 := s.filter (fun e => !(e.id = id))
    if (s.filter (fun e => e.id = id)).length = 0 then (404, s1) else (200, s1)

/-- The operations of the program that write to the table. -/
inductive Operacion where
  | crear (ok : Bool) (insertId : Nat) (b : Cuerpo)
  | actualizar (ok : Bool) (id : Nat) (b : Cuerpo)
  | completar (ok : Bool) (id : Nat)
  | eliminar (ok : Bool) (id : Nat)
  | ciclo (pool : Bool) (ok : Nat → Bool) (now : Int)

/-- The table after an operation. -/
def aplicar (op : Operacion) (s : List Evento) : List Evento :=
  match op with
  | Operacion.crear ok insertId b => (crearEvento ok insertId b s).2
  | Operacion.actualizar ok id b => (actualizarEvento ok id b s).2
  | Operacion.completar ok id => (completarEvento ok id s).2
  | Operacion.eliminar ok id => (eliminarEvento ok id s).2
  | Operacion.ciclo pool ok now => (cronCycle pool ok now s).store

/-- Storage assigns a fresh id: an `INSERT` never reuses the id of an existing row. -/
def idFresco (op : Operacion) (s : List Evento) : Prop :=
  match op with
  | Operacion.crear _ insertId _ => insertId ∉ s.map (fun e => e.id)
  | _ => True

/-- The ids of the table are pairwise distinct. -/
def idsUnicos (s : List Evento) : Prop :=
  (s.map (fun e => e.id)).Nodup



/-! ## Named values used in the statements -/

/-- The network steps of `k` failed attempts, each followed by its 5000 ms suspension. -/
def fallosYEsperas (k : Nat) : List Paso :=
  (List.replicate k [Paso.getConnection, Paso.esperar 5000]).flatten

/-- An event at 00:59 of day 0, not completed, not notified. -/
def eventoMadrugada : Evento :=
  { id := 1, titulo := "Cita", descripcion := none, fecha_hora := 3540,
    prioridad := "normal", completado := false, notificado := false }

/-- A completed event, already notified. -/
def eventoHecho : Evento :=
  { id := 1, titulo := "Entrega", descripcion := none, fecha_hora := 3540,
    prioridad := "high", completado := true, notificado := true }

/-- A `PUT` body that carries only `completado: false`. -/
def cuerpoReabrir : Cuerpo :=
  { titulo := none, descripcion := none, fecha_hora := none, prioridad := none,
    completado := some false }

/-- The operation is not a `PUT` whose body carries `completado: false`. -/
def noReabre (op : Operacion) : Prop :=
  match op with
  | Operacion.actualizar _ _ b => b.completado ≠ some false
  | _ => True

/-- A backend that refuses the first three connection attempts. -/
def conectaAlCuarto (i : Nat) : Bool := decide (3 ≤ i)

/-- Storage on which every statement of a cycle succeeds. -/
def siempreOk : Nat → Bool := fun _ => true

/-- An uncompleted event 15 minutes after 02:00 of day 0. -/
def eventoEnQuince : Evento :=
  { id := 2, titulo := "Standup", descripcion := none, fecha_hora := 7200 + 15 * 60,
    prioridad := "high", completado := false, notificado := false }

/-- An uncompleted event 45 minutes before 02:00 of day 0. -/
def eventoHaceCuarentaYCinco : Evento :=
  { id := 3, titulo := "Llamada", descripcion := none, fecha_hora := 7200 - 45 * 60,
    prioridad := "low", completado := false, notificado := true }

/-! ## Lemmas on `initDB` -/

/-- One unfolding of the loop. -/
theorem initDBLoop_unfold (conecta : Nat → Bool) (retries : Nat) :
    initDBLoop conecta retries =
      if retries < maxRetries then
        if conecta retries then
          (true, [Paso.logIntento (retries + 1) maxRetries, Paso.crearPool, Paso.getConnection]
            ++ [Paso.logExito, Paso.release])
        else if retries + 1 < maxRetries then
          ((initDBLoop conecta (retries + 1)).1,
            [Paso.logIntento (retries + 1) maxRetries, Paso.crearPool, Paso.getConnection]
              ++ [Paso.logError (retries + 1) maxRetries, Paso.logReintento, Paso.esperar 5000]
              ++ (initDBLoop conecta (retries + 1)).2)
        else
          (false, [Paso.logIntento (retries + 1) maxRetries, Paso.crearPool, Paso.getConnection]
            ++ [Paso.logError (retries + 1) maxRetries, Paso.logAgotado])
      else (false, []) := by
  rw [initDBLoop]

/-- Entered at `retries = r`, with `k` failures ahead and then a success, the loop returns
`true` after `k + 1` attempts and `k` suspensions. -/
theorem initDBLoop_exito (conecta : Nat → Bool) (k : Nat) :
    ∀ r, r + k < maxRetries → (∀ i, i < k → conecta (r + i) = false) →
      conecta (r + k) = true →
      (initDBLoop conecta r).1 = true ∧
      pasosDeRed (initDBLoop conecta r).2 = fallosYEsperas k ++ [Paso.getConnection] ∧
      intentos (initDBLoop conecta r).2 = k + 1 ∧
      esperas (initDBLoop conecta r).2 = List.replicate k 5000 := by
  induction k with
  | zero =>
    intro r hr _ hs
    rw [initDBLoop_unfold]
    have hr' : r < maxRetries := by omega
    simp at hs
    simp [hr', hs, pasosDeRed, intentos, esperas, fallosYEsperas]
  | succ k ih =>
    intro r hr hf hs
    have h0 : conecta r = false := by simpa using hf 0 (by omega)
    have hr' : r < maxRetries := by omega
    have hr1 : r + 1 < maxRetries := by omega
    obtain ⟨i1, i2, i3, i4⟩ := ih (r + 1) (by omega)
      (fun i hi => by
        have := hf (i + 1) (by omega)
        rwa [show r + (i + 1) = r + 1 + i by omega] at this)
      (by rwa [show r + (k + 1) = r + 1 + k by omega] at hs)
    rw [initDBLoop_unfold]
    simp only [hr', hr1, h0, if_true]
    simp [pasosDeRed, intentos, esperas, fallosYEsperas, List.replicate_succ] at i1 i2 i3 i4 ⊢
    exact ⟨i1, i2, i3, i4⟩

/-- Entered with `n + 1` attempts left and a backend that never answers, the loop returns
`false` after `n + 1` attempts and `n` suspensions. -/
theorem initDBLoop_agotado (conecta : Nat → Bool) (n : Nat) :
    ∀ r, r + n + 1 = maxRetries → (∀ i, i < maxRetries → conecta i = false) →
      (initDBLoop conecta r).1 = false ∧
      pasosDeRed (initDBLoop conecta r).2 = fallosYEsperas n ++ [Paso.getConnection] ∧
      intentos (initDBLoop conecta r).2 = n + 1 ∧
      esperas (initDBLoop conecta r).2 = List.replicate n 5000 := by
  induction n with
  | zero =>
    intro r hr hf
    have hr' : r < maxRetries := by omega
    have hr1 : ¬ (r + 1 < maxRetries) := by omega
    rw [initDBLoop_unfold]
    simp [hr', hr1, hf r hr', pasosDeRed, intentos, esperas, fallosYEsperas]
  | succ n ih =>
    intro r hr hf
    have hr' : r < maxRetries := by omega
    have hr1 : r + 1 < maxRetries := by omega
    obtain ⟨i1, i2, i3, i4⟩ := ih (r + 1) (by omega) hf
    rw [initDBLoop_unfold]
    simp only [hr', hr1, hf r hr', if_true]
    simp [pasosDeRed, intentos, esperas, fallosYEsperas, List.replicate_succ] at i1 i2 i3 i4 ⊢
    exact ⟨i1, i2, i3, i4⟩

/-- The loop never makes more attempts than `retries` leaves room for. -/
theorem initDBLoop_intentos_le (conecta : Nat → Bool) (n : Nat) :
    ∀ r, maxRetries - r ≤ n → intentos (initDBLoop conecta r).2 ≤ maxRetries - r := by
  induction n with
  | zero =>
    intro r hr
    have hr' : ¬ (r < maxRetries) := by omega
    rw [initDBLoop_unfold]
    simp [hr', intentos]
  | succ n ih =>
    intro r hr
    rw [initDBLoop_unfold]
    by_cases hr' : r < maxRetries
    · by_cases hc : conecta r = true
      · simp [hr', hc, intentos]; omega
      · by_cases hr1 : r + 1 < maxRetries
        · have := ih (r + 1) (by omega)
          simp [hr', hc, hr1, intentos] at this ⊢
          omega
        · simp [hr', hc, hr1, intentos]; omega
    · simp [hr', intentos]

/-- Whatever the backend does, `pool` is assigned when `initDB` returns. -/
theorem poolAsignado_initDB (conecta : Nat → Bool) :
    poolAsignado (initDB conecta).2 = true := by
  unfold initDB
  rw [initDBLoop_unfold]
  by_cases hc : conecta 0 = true <;> simp [hc, maxRetries, poolAsignado]

/-! ## Lemmas on the cycle -/

theorem marcarNotificado_nil (e : Evento) : marcarNotificado [] e = e := by
  simp [marcarNotificado]

theorem marcarNotificado_id (ids : List Nat) (e : Evento) :
    (marcarNotificado ids e).id = e.id := by
  unfold marcarNotificado; split <;> rfl

theorem marcarNotificado_completado (ids : List Nat) (e : Evento) :
    (marcarNotificado ids e).completado = e.completado := by
  unfold marcarNotificado; split <;> rfl

theorem marcarNotificado_fecha_hora (ids : List Nat) (e : Evento) :
    (marcarNotificado ids e).fecha_hora = e.fecha_hora := by
  unfold marcarNotificado; split <;> rfl

theorem marcarNotificado_notificado (ids : List Nat) (e : Evento)
    (h : e.notificado = true) : (marcarNotificado ids e).notificado = true := by
  unfold marcarNotificado; split <;> simp [h]

/-- The table after a cycle with an assigned pool and working storage. -/
theorem cronCycle_store (ok : Nat → Bool) (now : Int) (s : List Evento)
    (hok : ∀ k, ok k = true) :
    (cronCycle true ok now s).store =
      s.map (marcarNotificado ((s.filter (esHoy now)).map (fun e => e.id))) := by
  by_cases h : (s.filter (esHoy now)).length > 0
  · simp [cronCycle, hok, h]
  · have h0 : s.filter (esHoy now) = [] := by
      cases hl : s.filter (esHoy now) with
      | nil => rfl
      | cons a l => rw [hl] at h; simp at h
    have hid : marcarNotificado [] = id := funext marcarNotificado_nil
    simp [cronCycle, hok, h0, hid]

theorem cronCycle_eventosHoy (ok : Nat → Bool) (now : Int) (s : List Evento)
    (hok : ∀ k, ok k = true) :
    (cronCycle true ok now s).eventosHoy = s.filter (esHoy now) := by
  simp [cronCycle, hok]

theorem cronCycle_eventosProximos (ok : Nat → Bool) (now : Int) (s : List Evento)
    (hok : ∀ k, ok k = true) :
    (cronCycle true ok now s).eventosProximos =
      (cronCycle true ok now s).store.filter (esProximo now) := by
  simp [cronCycle, hok]

theorem cronCycle_eventosPasados (ok : Nat → Bool) (now : Int) (s : List Evento)
    (hok : ∀ k, ok k = true) :
    (cronCycle true ok now s).eventosPasados =
      (cronCycle true ok now s).store.filter (esPasado now) := by
  simp [cronCycle, hok]

/-- Whatever the pool and the storage do, a cycle leaves the table as it was or as the
bulk update of the selected ids makes it. -/
theorem cronCycle_store_cases (pool : Bool) (ok : Nat → Bool) (now : Int) (s : List Evento) :
    (cronCycle pool ok now s).store = s ∨
    (cronCycle pool ok now s).store =
      s.map (marcarNotificado ((s.filter (esHoy now)).map (fun e => e.id))) := by
  unfold cronCycle
  simp only []
  split
  · left; rfl
  · split
    · left; rfl
    · split
      · left; rfl
      · by_cases h : (s.filter (esHoy now)).length > 0
        · right; simp only [h, if_true]; split
          · rfl
          · split <;> rfl
        · left; simp only [h, if_false]; split
          · rfl
          · split <;> rfl

theorem mem_unico {s : List Evento} (hu : idsUnicos s) {e e' : Evento}
    (he : e ∈ s) (he' : e' ∈ s) (hid : e'.id = e.id) : e' = e :=
  List.inj_on_of_nodup_map hu he' he hid

/-- With unique ids the bulk update touches exactly the selected rows. -/
theorem marcarNotificado_filter (p : Evento → Bool) (s : List Evento) (hu : idsUnicos s)
    (e : Evento) (he : e ∈ s) :
    marcarNotificado ((s.filter p).map (fun e => e.id)) e =
      if p e then { e with notificado := true } else e := by
  have hc : ((s.filter p).map (fun e => e.id)).contains e.id = p e := by
    by_cases hp : p e = true
    · rw [hp]
      simp only [List.contains_iff_exists_mem_beq, List.mem_map, List.mem_filter]
      exact ⟨e.id, ⟨e, ⟨he, hp⟩, rfl⟩, by simp⟩
    · have hp' : p e = false := by simpa using hp
      rw [hp', Bool.eq_false_iff]
      simp only [ne_eq, List.contains_iff_exists_mem_beq, List.mem_map, List.mem_filter]
      rintro ⟨i, ⟨e', ⟨he', hpe⟩, hi⟩, hie⟩
      have hid : e'.id = e.id := by
        have hei : e.id = i := by simpa using hie
        exact hi.trans hei.symm
      exact hp (mem_unico hu he he' hid ▸ hpe)
  unfold marcarNotificado
  rw [hc]


/-! ## Claims on the cycle -/

theorem esHoy_marcado (now : Int) (s : List Evento) (e : Evento) (he : e ∈ s) :
    esHoy now (marcarNotificado ((s.filter (esHoy now)).map (fun e => e.id)) e) = false := by
  unfold marcarNotificado
  split
  · simp [esHoy]
  · rename_i hc
    rw [Bool.eq_false_iff]
    intro hp
    apply hc
    simp only [List.contains_iff_exists_mem_beq, List.mem_map, List.mem_filter]
    exact ⟨e.id, ⟨e, ⟨he, hp⟩, rfl⟩, by simp⟩

theorem esProximo_marcado (now : Int) (ids : List Nat) (e : Evento) :
    esProximo now (marcarNotificado ids e) = esProximo now e := by
  simp [esProximo, marcarNotificado_completado, marcarNotificado_fecha_hora]

theorem esPasado_marcado (now : Int) (ids : List Nat) (e : Evento) :
    esPasado now (marcarNotificado ids e) = esPasado now e := by
  simp [esPasado, marcarNotificado_completado, marcarNotificado_fecha_hora]

theorem esProximo_iff (now : Int) (e : Evento) :
    esProximo now e = true ↔
      e.completado = false ∧ now ≤ e.fecha_hora ∧ e.fecha_hora ≤ now + 30 * 60 := by
  simp [esProximo]; tauto

theorem esPasado_iff (now : Int) (e : Evento) :
    esPasado now e = true ↔
      e.completado = false ∧ now - 60 * 60 ≤ e.fecha_hora ∧ e.fecha_hora < now := by
  simp [esPasado]; tauto

theorem esHoy_iff (now : Int) (e : Evento) :
    esHoy now e = true ↔
      DATE e.fecha_hora = DATE now ∧ e.notificado = false ∧ e.completado = false := by
  simp [esHoy]; tauto

/-- Claim C1: with unique ids, an assigned pool and working storage, one run of the cycle
maps the table row by row: a row whose `fecha_hora` is on the day of `now` and that has
`notificado = false` and `completado = false` gets `notificado = true`, every other row is
left as it is; no other field changes, and the rows and their ids stay the same, in the
same order. -/
theorem cronCycle_notifica_exactamente_hoy (ok : Nat → Bool) (now : Int) (s : List Evento)
    (hok : ∀ k, ok k = true) (hu : idsUnicos s) :
    (cronCycle true ok now s).store =
      s.map (fun e =>
        if DATE e.fecha_hora = DATE now ∧ e.notificado = false ∧ e.completado = false
        then { e with notificado := true } else e) ∧
    (cronCycle true ok now s).store.length = s.length ∧
    (cronCycle true ok now s).store.map (fun e => e.id) = s.map (fun e => e.id) := by
  have hst : (cronCycle true ok now s).store =
      s.map (fun e =>
        if DATE e.fecha_hora = DATE now ∧ e.notificado = false ∧ e.completado = false
        then { e with notificado := true } else e) := by
    rw [cronCycle_store ok now s hok]
    apply List.map_congr_left
    intro e he
    rw [marcarNotificado_filter (esHoy now) s hu e he]
    by_cases h : esHoy now e = true
    · rw [if_pos h, if_pos ((esHoy_iff now e).1 h)]
    · rw [if_neg h, if_neg (fun h' => h ((esHoy_iff now e).2 h'))]
  refine ⟨hst, ?_, ?_⟩
  · rw [hst, List.length_map]
  · rw [hst, List.map_map]
    apply List.map_congr_left
    intro e _
    simp only [Function.comp]
    split <;> rfl

/-- Witness of C1 on a one-row table at 02:00 of day 0. -/
theorem cronCycle_notifica_exactamente_hoy_witness :
    ((∀ k, siempreOk k = true) ∧ idsUnicos [eventoMadrugada]) ∧
    (cronCycle true siempreOk 7200 [eventoMadrugada]).store =
      [eventoMadrugada].map (fun e =>
        if DATE e.fecha_hora = DATE 7200 ∧ e.notificado = false ∧ e.completado = false
        then { e with notificado := true } else e) :=
  ⟨⟨fun _ => rfl, by unfold idsUnicos; decide⟩,
    (cronCycle_notifica_exactamente_hoy siempreOk 7200 [eventoMadrugada] (fun _ => rfl)
      (by unfold idsUnicos; decide)).1⟩

/-- Claim C2: with an assigned pool and working storage, a second run of the cycle at the
same `now` selects no row in its due-today pass and leaves the table as the first run left
it. -/
theorem cronCycle_idempotente (ok : Nat → Bool) (now : Int) (s : List Evento) (hok : ∀ k, ok k = true) :
    (cronCycle true ok now (cronCycle true ok now s).store).eventosHoy = [] ∧
    (cronCycle true ok now (cronCycle true ok now s).store).store =
      (cronCycle true ok now s).store := by
  have hvacio : (cronCycle true ok now s).store.filter (esHoy now) = [] := by
    rw [cronCycle_store ok now s hok, List.filter_eq_nil_iff]
    intro e' he'
    obtain ⟨e, he, rfl⟩ := List.mem_map.1 he'
    simp [esHoy_marcado now s e he]
  constructor
  · rw [cronCycle_eventosHoy ok now _ hok, hvacio]
  · rw [cronCycle_store ok now (cronCycle true ok now s).store hok, hvacio]
    have hid : marcarNotificado [] = id := funext marcarNotificado_nil
    simp [hid]


/-- Witness of C2 on a one-row table at 02:00 of day 0. -/
theorem cronCycle_idempotente_witness :
    (∀ k, siempreOk k = true) ∧
    (cronCycle true siempreOk 7200
        (cronCycle true siempreOk 7200 [eventoMadrugada]).store).eventosHoy = [] ∧
    (cronCycle true siempreOk 7200
        (cronCycle true siempreOk 7200 [eventoMadrugada]).store).store =
      (cronCycle true siempreOk 7200 [eventoMadrugada]).store :=
  ⟨fun _ => rfl, cronCycle_idempotente siempreOk 7200 [eventoMadrugada] (fun _ => rfl)⟩

/-- Membership in the imminent result set. -/
theorem mem_proximos_iff (ok : Nat → Bool) (now : Int) (s : List Evento)
    (hok : ∀ k, ok k = true) (e : Evento) :
    e ∈ (cronCycle true ok now s).eventosProximos ↔
      e ∈ (cronCycle true ok now s).store ∧ e.completado = false ∧
        now ≤ e.fecha_hora ∧ e.fecha_hora ≤ now + 30 * 60 := by
  rw [cronCycle_eventosProximos ok now s hok, List.mem_filter, esProximo_iff]

/-- Membership in the recently-overdue result set. -/
theorem mem_pasados_iff (ok : Nat → Bool) (now : Int) (s : List Evento)
    (hok : ∀ k, ok k = true) (e : Evento) :
    e ∈ (cronCycle true ok now s).eventosPasados ↔
      e ∈ (cronCycle true ok now s).store ∧ e.completado = false ∧
        now - 60 * 60 ≤ e.fecha_hora ∧ e.fecha_hora < now := by
  rw [cronCycle_eventosPasados ok now s hok, List.mem_filter, esPasado_iff]

/-- With unique ids, a row of the table read by the cycle has its id in the result of a
later query exactly when the row satisfies the query's clause, provided the clause does not
look at `notificado`. -/
theorem id_mem_filter_store (ok : Nat → Bool) (now : Int) (s : List Evento)
    (hok : ∀ k, ok k = true) (hu : idsUnicos s) (p : Evento → Bool)
    (hp : ∀ ids e, p (marcarNotificado ids e) = p e) (e : Evento) (he : e ∈ s) :
    e.id ∈ ((cronCycle true ok now s).store.filter p).map (fun e => e.id) ↔ p e = true := by
  rw [cronCycle_store ok now s hok]
  simp only [List.mem_map, List.mem_filter]
  constructor
  · rintro ⟨e1, ⟨⟨e0, he0, rfl⟩, hp1⟩, hid⟩
    rw [marcarNotificado_id] at hid
    rw [hp] at hp1
    exact mem_unico hu he he0 hid ▸ hp1
  · intro hpe
    exact ⟨_, ⟨⟨e, he, rfl⟩, by rw [hp]; exact hpe⟩, marcarNotificado_id _ e⟩

/-- Claim C5: with an assigned pool and working storage, a row is in `eventosProximos` if
and only if it is a row of the table with `completado = false` and
`now <= fecha_hora <= now + 30 min`, both bounds inclusive; `notificado` plays no part: with
unique ids, the id of a row of the table the cycle started from is among the ids of the
result exactly under the same condition.  An uncompleted row at `now + 15 min` is in the
set; a row at `now + 31 min` is in neither `eventosProximos` nor `eventosPasados`. -/
theorem eventosProximos_spec (ok : Nat → Bool) (now : Int) (s : List Evento) (hok : ∀ k, ok k = true) :
    (∀ e, e ∈ (cronCycle true ok now s).eventosProximos ↔
      e ∈ (cronCycle true ok now s).store ∧ e.completado = false ∧
        now ≤ e.fecha_hora ∧ e.fecha_hora ≤ now + 30 * 60) ∧
    (idsUnicos s → ∀ e, e ∈ s →
      (e.id ∈ (cronCycle true ok now s).eventosProximos.map (fun x => x.id) ↔
        e.completado = false ∧ now ≤ e.fecha_hora ∧ e.fecha_hora ≤ now + 30 * 60)) ∧
    (∀ e, e ∈ (cronCycle true ok now s).store → e.completado = false →
      e.fecha_hora = now + 15 * 60 → e ∈ (cronCycle true ok now s).eventosProximos) ∧
    (∀ e, e.fecha_hora = now + 31 * 60 →
      e ∉ (cronCycle true ok now s).eventosProximos ∧
      e ∉ (cronCycle true ok now s).eventosPasados) := by
  refine ⟨mem_proximos_iff ok now s hok, ?_, ?_, ?_⟩
  · intro hu e he
    rw [cronCycle_eventosProximos ok now s hok,
      id_mem_filter_store ok now s hok hu (esProximo now) (esProximo_marcado now) e he,
      esProximo_iff]
  · intro e he hc hf
    rw [mem_proximos_iff ok now s hok]
    exact ⟨he, hc, by omega, by omega⟩
  · intro e hf
    rw [mem_proximos_iff ok now s hok, mem_pasados_iff ok now s hok]
    constructor
    · rintro ⟨_, _, _, h⟩; omega
    · rintro ⟨_, _, _, h⟩; omega

/-- Witness of C5: at 02:00 the event of 02:15 is in the imminent set. -/
theorem eventosProximos_spec_witness :
    ((∀ k, siempreOk k = true) ∧ idsUnicos [eventoEnQuince] ∧
      eventoEnQuince ∈ [eventoEnQuince]) ∧
    eventoEnQuince.id ∈
      (cronCycle true siempreOk 7200 [eventoEnQuince]).eventosProximos.map (fun x => x.id) :=
  ⟨⟨fun _ => rfl, by unfold idsUnicos; decide, by decide⟩,
    ((eventosProximos_spec siempreOk 7200 [eventoEnQuince] (fun _ => rfl)).2.1
      (by unfold idsUnicos; decide) eventoEnQuince (by decide)).2
      ⟨rfl, by decide, by decide⟩⟩

/-- Claim C6: with an assigned pool and working storage, a row is in `eventosPasados` if
and only if it is a row of the table with `completado = false` and
`now - 60 min <= fecha_hora < now`, the lower bound inclusive and the upper bound strict;
with unique ids, the id of a row of the table the cycle started from is among the ids of
the result exactly under the same condition.  An uncompleted row at `now - 45 min` is in
the set; a row scheduled exactly at `now` is not. -/
theorem eventosPasados_spec (ok : Nat → Bool) (now : Int) (s : List Evento) (hok : ∀ k, ok k = true) :
    (∀ e, e ∈ (cronCycle true ok now s).eventosPasados ↔
      e ∈ (cronCycle true ok now s).store ∧ e.completado = false ∧
        now - 60 * 60 ≤ e.fecha_hora ∧ e.fecha_hora < now) ∧
    (idsUnicos s → ∀ e, e ∈ s →
      (e.id ∈ (cronCycle true ok now s).eventosPasados.map (fun x => x.id) ↔
        e.completado = false ∧ now - 60 * 60 ≤ e.fecha_hora ∧ e.fecha_hora < now)) ∧
    (∀ e, e ∈ (cronCycle true ok now s).store → e.completado = false →
      e.fecha_hora = now - 45 * 60 → e ∈ (cronCycle true ok now s).eventosPasados) ∧
    (∀ e, e.fecha_hora = now → e ∉ (cronCycle true ok now s).eventosPasados) := by
  refine ⟨mem_pasados_iff ok now s hok, ?_, ?_, ?_⟩
  · intro hu e he
    rw [cronCycle_eventosPasados ok now s hok,
      id_mem_filter_store ok now s hok hu (esPasado now) (esPasado_marcado now) e he,
      esPasado_iff]
  · intro e he hc hf
    rw [mem_pasados_iff ok now s hok]
    exact ⟨he, hc, by omega, by omega⟩
  · intro e hf
    rw [mem_pasados_iff ok now s hok]
    rintro ⟨_, _, _, h⟩; omega


/-- Witness of C6: at 02:00 the event of 01:15 is in the recently-overdue set. -/
theorem eventosPasados_spec_witness :
    ((∀ k, siempreOk k = true) ∧ idsUnicos [eventoHaceCuarentaYCinco] ∧
      eventoHaceCuarentaYCinco ∈ [eventoHaceCuarentaYCinco]) ∧
    eventoHaceCuarentaYCinco.id ∈
      (cronCycle true siempreOk 7200 [eventoHaceCuarentaYCinco]).eventosPasados.map
        (fun x => x.id) :=
  ⟨⟨fun _ => rfl, by unfold idsUnicos; decide, by decide⟩,
    ((eventosPasados_spec siempreOk 7200 [eventoHaceCuarentaYCinco] (fun _ => rfl)).2.1
      (by unfold idsUnicos; decide) eventoHaceCuarentaYCinco (by decide)).2
      ⟨rfl, by decide, by decide⟩⟩

/-- Counterexample to C9 as stated: at 02:00 an uncompleted, unnotified event of 00:59 the
same day, 61 minutes in the past, is selected by the due-today pass. -/
theorem atrasado_61_min_en_eventosHoy :
    eventoMadrugada.completado = false ∧
    eventoMadrugada.fecha_hora = 7200 - 61 * 60 ∧
    eventoMadrugada ∈ (cronCycle true siempreOk 7200 [eventoMadrugada]).eventosHoy := by
  decide

/-- Claim C9, amended: with an assigned pool and working storage, a row with
`completado = false` and `fecha_hora` earlier than `now - 60 min` is, whatever its
`notificado`, in neither `eventosProximos` nor `eventosPasados`; when it is a row of the
table it is in `eventosHoy` exactly when its `fecha_hora` is on the day of `now` and its
`notificado` is `false`. -/
theorem atrasado_fuera_de_ventanas (ok : Nat → Bool) (now : Int) (s : List Evento) (hok : ∀ k, ok k = true)
    (e : Evento) (hc : e.completado = false) (hf : e.fecha_hora < now - 60 * 60) :
    (∀ x, x.fecha_hora = e.fecha_hora →
      x ∉ (cronCycle true ok now s).eventosProximos ∧
      x ∉ (cronCycle true ok now s).eventosPasados) ∧
    (e ∈ s → (e ∈ (cronCycle true ok now s).eventosHoy ↔
      DATE e.fecha_hora = DATE now ∧ e.notificado = false)) := by
  constructor
  · intro x hx
    rw [mem_proximos_iff ok now s hok, mem_pasados_iff ok now s hok]
    constructor
    · rintro ⟨_, _, h, _⟩; omega
    · rintro ⟨_, _, h, _⟩; omega
  · intro he
    rw [cronCycle_eventosHoy ok now s hok, List.mem_filter, esHoy_iff]
    constructor
    · rintro ⟨_, h1, h2, _⟩; exact ⟨h1, h2⟩
    · rintro ⟨h1, h2⟩; exact ⟨he, h1, h2, hc⟩

/-- Witness of the amended C9 at 02:00 with the event of 00:59. -/
theorem atrasado_fuera_de_ventanas_witness :
    ((∀ k, siempreOk k = true) ∧ eventoMadrugada.completado = false ∧
      eventoMadrugada.fecha_hora < 7200 - 60 * 60) ∧
    eventoMadrugada ∉ (cronCycle true siempreOk 7200 [eventoMadrugada]).eventosProximos ∧
    eventoMadrugada ∉ (cronCycle true siempreOk 7200 [eventoMadrugada]).eventosPasados :=
  ⟨⟨fun _ => rfl, rfl, by decide⟩,
    (atrasado_fuera_de_ventanas siempreOk 7200 [eventoMadrugada] (fun _ => rfl)
      eventoMadrugada rfl (by decide)).1 eventoMadrugada rfl⟩

/-- Counterexample to C10 as stated: with a backend that never answers, `initDB` returns
`false`, yet `pool` is assigned from the first attempt on (already at the first
suspension, six steps into the trace) and still when `initDB` returns; a cycle run then
issues the `eventosHoy` query and logs the error of its `catch`. -/
theorem ciclo_no_silencioso_tras_initDB_fallido :
    (initDB (fun _ => false)).1 = false ∧
    poolAsignado ((initDB (fun _ => false)).2.take 6) = true ∧
    poolAsignado (initDB (fun _ => false)).2 = true ∧
    (cronCycle (poolAsignado (initDB (fun _ => false)).2) (fun _ => false) 0 []).traza =
      [Efecto.consultaHoy, Efecto.logErrorCiclo] := by
  refine ⟨(initDBLoop_agotado _ 9 0 rfl (fun _ _ => rfl)).1, ?_, poolAsignado_initDB _, ?_⟩
  · rw [initDB, initDBLoop_unfold]
    simp [maxRetries, poolAsignado]
  · rw [poolAsignado_initDB]
    decide

/-- For every backend the trace of `initDB` starts with the first attempt's log line, the
assignment of `pool` (line 48) and only then the first `await` (line 50). -/
theorem initDB_traza_inicio (conecta : Nat → Bool) :
    ∃ resto, (initDB conecta).2 =
      Paso.logIntento 1 10 :: Paso.crearPool :: Paso.getConnection :: resto := by
  unfold initDB
  rw [initDBLoop_unfold]
  by_cases hc : conecta 0 = true
  · exact ⟨[Paso.logExito, Paso.release], by simp [hc, maxRetries]⟩
  · exact ⟨Paso.logError 1 10 :: Paso.logReintento :: Paso.esperar 5000 ::
      (initDBLoop conecta 1).2, by simp [hc, maxRetries]⟩

/-- The global `pool` after the first `n` steps of `initDB` is assigned exactly when line
48 is among them, that is from the second step on. -/
theorem poolAsignado_take_initDB (conecta : Nat → Bool) (n : Nat) :
    poolAsignado ((initDB conecta).2.take n) = true ↔ 2 ≤ n := by
  obtain ⟨resto, h⟩ := initDB_traza_inicio conecta
  rw [h]
  match n with
  | 0 => simp [poolAsignado]
  | 1 => simp [poolAsignado]
  | m + 2 => simp [poolAsignado]

/-- With `pool` unassigned the callback returns at line 296. -/
theorem cronCycle_sin_pool (ok : Nat → Bool) (now : Int) (s : List Evento) :
    cronCycle false ok now s =
      { store := s, eventosHoy := [], eventosProximos := [], eventosPasados := [],
        traza := [] } := by
  simp [cronCycle]

/-- With `pool` assigned the first effect of a run is the `eventosHoy` query. -/
theorem cronCycle_traza_head (ok : Nat → Bool) (now : Int) (s : List Evento) :
    (cronCycle true ok now s).traza.head? = some Efecto.consultaHoy := by
  unfold cronCycle
  simp only []
  split
  · rename_i h; simp at h
  · split
    · rfl
    · split
      · rfl
      · split
        · rfl
        · split <;> rfl

/-- With `pool` assigned and the `eventosHoy` query failing, the run goes straight to the
`catch` of line 338. -/
theorem cronCycle_falla_consultaHoy (ok : Nat → Bool) (now : Int) (s : List Evento)
    (h0 : ok 0 = false) :
    cronCycle true ok now s =
      { store := s, eventosHoy := [], eventosProximos := [], eventosPasados := [],
        traza := [Efecto.consultaHoy, Efecto.logErrorCiclo] } := by
  simp [cronCycle, h0]

/-- Claim C10, amended: for every backend, `initDB` assigns `pool` (line 48) as its second
step, before its first `await` (line 50), so `pool` is assigned at every later point of
`initDB`: while the first attempt is in flight, at every suspension between failed
attempts, and after the attempts are exhausted or have succeeded.  A run of the cycle at
a point `n` steps into `initDB` is a silent no-op (unchanged table, empty result sets,
empty trace) exactly when `n < 2`, that is only before line 48 has run; at every point
with `2 <= n` its first effect is the `eventosHoy` query, and when that query fails the run
logs the one error line of its `catch`, issues no other statement and leaves the table
unchanged. -/
theorem ciclo_segun_progreso_de_initDB (conecta : Nat → Bool) (n : Nat) (ok : Nat → Bool)
    (now : Int) (s : List Evento) :
    (initDB conecta).2.take 3 = [Paso.logIntento 1 10, Paso.crearPool, Paso.getConnection] ∧
    (poolAsignado ((initDB conecta).2.take n) = true ↔ 2 ≤ n) ∧
    (cronCycle (poolAsignado ((initDB conecta).2.take n)) ok now s =
        { store := s, eventosHoy := [], eventosProximos := [], eventosPasados := [],
          traza := [] } ↔ n < 2) ∧
    ((cronCycle (poolAsignado ((initDB conecta).2.take n)) ok now s).traza = [] ↔ n < 2) ∧
    (2 ≤ n →
      (cronCycle (poolAsignado ((initDB conecta).2.take n)) ok now s).traza.head? =
        some Efecto.consultaHoy ∧
      (ok 0 = false →
        cronCycle (poolAsignado ((initDB conecta).2.take n)) ok now s =
          { store := s, eventosHoy := [], eventosProximos := [], eventosPasados := [],
            traza := [Efecto.consultaHoy, Efecto.logErrorCiclo] })) := by
  have hpool := poolAsignado_take_initDB conecta n
  have hinicio : (initDB conecta).2.take 3 =
      [Paso.logIntento 1 10, Paso.crearPool, Paso.getConnection] := by
    obtain ⟨resto, h⟩ := initDB_traza_inicio conecta
    rw [h]
    simp
  have hasignado : 2 ≤ n → poolAsignado ((initDB conecta).2.take n) = true := hpool.2
  have hsin : n < 2 → poolAsignado ((initDB conecta).2.take n) = false := by
    intro hn
    rw [← Bool.not_eq_true, hpool]
    omega
  have htraza : (cronCycle (poolAsignado ((initDB conecta).2.take n)) ok now s).traza = []
      ↔ n < 2 := by
    constructor
    · intro h
      by_contra hn
      rw [hasignado (by omega)] at h
      have hh := cronCycle_traza_head ok now s
      rw [h] at hh
      simp at hh
    · intro hn
      rw [hsin hn, cronCycle_sin_pool]
  refine ⟨hinicio, hpool, ?_, htraza, ?_⟩
  · constructor
    · intro h
      exact htraza.1 (by rw [h])
    · intro hn
      rw [hsin hn, cronCycle_sin_pool]
  · intro hn
    rw [hasignado hn]
    exact ⟨cronCycle_traza_head ok now s, cronCycle_falla_consultaHoy ok now s⟩

/-- Witness of the amended C10: a backend that never answers, a run of the cycle at the
first suspension of `initDB` (six steps in), the `eventosHoy` query failing. -/
theorem ciclo_segun_progreso_de_initDB_witness :
    ((2 : Nat) ≤ 6 ∧ (fun (_ : Nat) => false) 0 = false) ∧
    cronCycle (poolAsignado ((initDB (fun _ => false)).2.take 6)) (fun _ => false) 7200
        [eventoMadrugada] =
      { store := [eventoMadrugada], eventosHoy := [], eventosProximos := [],
        eventosPasados := [], traza := [Efecto.consultaHoy, Efecto.logErrorCiclo] } :=
  ⟨⟨by decide, rfl⟩,
    ((ciclo_segun_progreso_de_initDB (fun _ => false) 6 (fun _ => false) 7200
      [eventoMadrugada]).2.2.2.2 (by decide)).2 rfl⟩

/-! ## Lemmas on the routes -/

/-- A row-wise update that keeps ids sends the row with a given id to its image. -/
theorem mem_map_mismo_id {s : List Evento} (hu : idsUnicos s) (f : Evento → Evento)
    (hfid : ∀ x, (f x).id = x.id) {e e' : Evento} (he : e ∈ s) (he' : e' ∈ s.map f)
    (hid : e'.id = e.id) : e' = f e := by
  obtain ⟨e0, he0, rfl⟩ := List.mem_map.1 he'
  rw [hfid] at hid
  rw [mem_unico hu he he0 hid]

/-- The row with a given id that an operation leaves in the table is either the old row
itself or its image under the operation's row-wise update. -/
theorem aplicar_fila (op : Operacion) (s : List Evento) (hu : idsUnicos s)
    (hf : idFresco op s) (e e' : Evento) (he : e ∈ s) (he' : e' ∈ aplicar op s)
    (hid : e'.id = e.id) :
    e' = e ∨
    (∃ id b, op = Operacion.actualizar true id b ∧ e' = coalesceFila b e) ∨
    (∃ id, op = Operacion.completar true id ∧ e' = { e with completado := true }) ∨
    (∃ ids, e' = marcarNotificado ids e) := by
  cases op with
  | crear ok insertId b =>
    left
    simp only [aplicar, crearEvento] at he'
    simp only [idFresco] at hf
    have hnew : ∀ x : Evento, x.id = insertId → e' = x → False := by
      intro x hx hex
      apply hf
      rw [← hx, ← hex, hid]
      exact List.mem_map.2 ⟨e, he, rfl⟩
    split at he'
    · split at he'
      · exact mem_unico hu he he' hid
      · split at he'
        · exact mem_unico hu he he' hid
        · rcases List.mem_append.1 he' with h | h
          · exact mem_unico hu he h hid
          · exact (hnew _ rfl (List.mem_singleton.1 h)).elim
    · exact mem_unico hu he he' hid
  | actualizar ok id b =>
    simp only [aplicar, actualizarEvento] at he'
    have hfid : ∀ x : Evento, (if x.id = id then coalesceFila b x else x).id = x.id := by
      intro x; split <;> rfl
    have hm : ok = true → e' = if e.id = id then coalesceFila b e else e := by
      intro hok
      subst hok
      have : e' ∈ s.map (fun x => if x.id = id then coalesceFila b x else x) := by
        simp only [Bool.true_eq_false, if_false] at he'
        split at he' <;> exact he'
      exact mem_map_mismo_id hu _ hfid he this hid
    cases ok with
    | false => left; exact mem_unico hu he (by simpa using he') hid
    | true =>
      have h := hm rfl
      by_cases hc : e.id = id
      · right; left; exact ⟨id, b, rfl, by rw [h, if_pos hc]⟩
      · left; rw [h, if_neg hc]
  | completar ok id =>
    simp only [aplicar, completarEvento] at he'
    have hfid : ∀ x : Evento, (if x.id = id then { x with completado := true } else x).id = x.id := by
      intro x; split <;> rfl
    cases ok with
    | false => left; exact mem_unico hu he (by simpa using he') hid
    | true =>
      have : e' ∈ s.map (fun x => if x.id = id then { x with completado := true } else x) := by
        simp only [Bool.true_eq_false, if_false] at he'
        split at he' <;> exact he'
      have h := mem_map_mismo_id hu _ hfid he this hid
      by_cases hc : e.id = id
      · right; right; left; exact ⟨id, rfl, by rw [h, if_pos hc]⟩
      · left; rw [h, if_neg hc]
  | eliminar ok id =>
    left
    simp only [aplicar, eliminarEvento] at he'
    cases ok with
    | false => exact mem_unico hu he (by simpa using he') hid
    | true =>
      have : e' ∈ s.filter (fun x => !(decide (x.id = id))) := by
        simp only [Bool.true_eq_false, if_false] at he'
        split at he' <;> exact he'
      exact mem_unico hu he (List.mem_filter.1 this).1 hid
  | ciclo pool ok now =>
    simp only [aplicar] at he'
    rcases cronCycle_store_cases pool ok now s with h | h
    · left; rw [h] at he'; exact mem_unico hu he he' hid
    · right; right; right
      rw [h] at he'
      exact ⟨_, mem_map_mismo_id hu _ (marcarNotificado_id _) he he' hid⟩

/-- Claim C7: with unique ids, storage assigning a fresh id to an inserted row, and any
operation (create, update with any body, complete, delete, a cycle at any instant, each
with storage working or failing), a row that has `notificado = true` before the operation
and whose id is still in the table after it has `notificado = true` after it. -/
theorem notificado_no_revierte (op : Operacion) (s : List Evento) (hu : idsUnicos s) (hf : idFresco op s)
    (e e' : Evento) (he : e ∈ s) (hn : e.notificado = true)
    (he' : e' ∈ aplicar op s) (hid : e'.id = e.id) : e'.notificado = true := by
  rcases aplicar_fila op s hu hf e e' he he' hid with h | ⟨_, b, _, h⟩ | ⟨_, _, h⟩ | ⟨ids, h⟩
  · rw [h]; exact hn
  · rw [h]; exact hn
  · rw [h]; exact hn
  · rw [h]; exact marcarNotificado_notificado ids e hn

/-- Witness of C7: a `PUT` on a notified row. -/
theorem notificado_no_revierte_witness :
    (idsUnicos [eventoHecho] ∧ idFresco (Operacion.actualizar true 1 cuerpoReabrir) [eventoHecho] ∧
      eventoHecho ∈ [eventoHecho] ∧ eventoHecho.notificado = true ∧
      { eventoHecho with completado := false } ∈
        aplicar (Operacion.actualizar true 1 cuerpoReabrir) [eventoHecho] ∧
      ({ eventoHecho with completado := false } : Evento).id = eventoHecho.id) ∧
    ({ eventoHecho with completado := false } : Evento).notificado = true :=
  ⟨⟨by unfold idsUnicos; decide, trivial, by decide, rfl, by decide, rfl⟩,
    notificado_no_revierte (Operacion.actualizar true 1 cuerpoReabrir) [eventoHecho]
      (by unfold idsUnicos; decide) trivial eventoHecho { eventoHecho with completado := false }
      (by decide) rfl (by decide) rfl⟩

/-- Counterexample to C8 as stated: a `PUT` whose body carries `completado: false` sets a
completed row back to `completado = false`. -/
theorem completado_revierte_con_put :
    idsUnicos [eventoHecho] ∧ eventoHecho ∈ [eventoHecho] ∧ eventoHecho.completado = true ∧
    ∃ e', e' ∈ aplicar (Operacion.actualizar true 1 cuerpoReabrir) [eventoHecho] ∧
      e'.id = eventoHecho.id ∧ e'.completado = false :=
  ⟨by unfold idsUnicos; decide, by decide, rfl,
    { eventoHecho with completado := false }, by decide, rfl, rfl⟩

/-- Claim C8, amended: with unique ids, storage assigning a fresh id to an inserted row,
and any operation other than a `PUT` whose body carries `completado: false`, a row that has
`completado = true` before the operation and whose id is still in the table after it has
`completado = true` after it. -/
theorem completado_no_revierte_sin_put_false (op : Operacion) (s : List Evento) (hu : idsUnicos s) (hf : idFresco op s)
    (hr : noReabre op) (e e' : Evento) (he : e ∈ s) (hc : e.completado = true)
    (he' : e' ∈ aplicar op s) (hid : e'.id = e.id) : e'.completado = true := by
  rcases aplicar_fila op s hu hf e e' he he' hid with h | ⟨_, b, hop, h⟩ | ⟨_, _, h⟩ | ⟨ids, h⟩
  · rw [h]; exact hc
  · subst hop
    simp only [noReabre] at hr
    rw [h]
    simp only [coalesceFila]
    cases hb : b.completado with
    | none => simpa using hc
    | some v =>
      cases v with
      | false => exact (hr hb).elim
      | true => rfl
  · rw [h]
  · rw [h, marcarNotificado_completado]; exact hc

/-- Witness of the amended C8: a cycle on a completed row. -/
theorem completado_no_revierte_sin_put_false_witness :
    (idsUnicos [eventoHecho] ∧ idFresco (Operacion.ciclo true siempreOk 7200) [eventoHecho] ∧
      noReabre (Operacion.ciclo true siempreOk 7200) ∧
      eventoHecho ∈ [eventoHecho] ∧ eventoHecho.completado = true ∧
      eventoHecho ∈ aplicar (Operacion.ciclo true siempreOk 7200) [eventoHecho] ∧
      eventoHecho.id = eventoHecho.id) ∧
    eventoHecho.completado = true :=
  ⟨⟨by unfold idsUnicos; decide, trivial, trivial, by decide, rfl, by decide, rfl⟩,
    completado_no_revierte_sin_put_false (Operacion.ciclo true siempreOk 7200) [eventoHecho]
      (by unfold idsUnicos; decide) trivial trivial eventoHecho eventoHecho
      (by decide) rfl (by decide) rfl⟩


/-! ## Claims on `initDB` -/

/-- Claim C3: for `k <= 9`, when the first `k` connection attempts fail and attempt `k + 1`
succeeds, `initDB` returns `true` after exactly `k + 1` attempts and exactly `k`
suspensions of 5000 ms, one after each failed attempt, and the successful attempt is the
last network step. -/
theorem initDB_exito_tras_fallos (conecta : Nat → Bool) (k : Nat) (hk : k ≤ 9)
    (hf : ∀ i, i < k → conecta i = false) (hs : conecta k = true) :
    (initDB conecta).1 = true ∧
    intentos (initDB conecta).2 = k + 1 ∧
    esperas (initDB conecta).2 = List.replicate k 5000 ∧
    pasosDeRed (initDB conecta).2 = fallosYEsperas k ++ [Paso.getConnection] := by
  obtain ⟨h1, h2, h3, h4⟩ := initDBLoop_exito conecta k 0
    (by simp only [maxRetries]; omega)
    (fun i hi => by rw [Nat.zero_add]; exact hf i hi)
    (by rw [Nat.zero_add]; exact hs)
  exact ⟨h1, h3, h4, h2⟩

/-- Witness of C3, the case of the spec: three failures, then success. -/
theorem initDB_exito_tras_fallos_witness :
    ((3 : Nat) ≤ 9 ∧ (∀ i, i < 3 → conectaAlCuarto i = false) ∧ conectaAlCuarto 3 = true) ∧
    (initDB conectaAlCuarto).1 = true ∧
    intentos (initDB conectaAlCuarto).2 = 4 ∧
    esperas (initDB conectaAlCuarto).2 = [5000, 5000, 5000] ∧
    pasosDeRed (initDB conectaAlCuarto).2 = fallosYEsperas 3 ++ [Paso.getConnection] :=
  ⟨⟨by decide, by decide, by decide⟩,
    initDB_exito_tras_fallos conectaAlCuarto 3 (by decide) (by decide) (by decide)⟩

/-- Claim C4: when every connection attempt fails, `initDB` returns `false` after exactly
10 attempts and exactly 9 suspensions of 5000 ms, one after each of the first 9 attempts
and none after the last; and whatever the backend does, `initDB` makes at most 10
attempts. -/
theorem initDB_agota_reintentos (conecta : Nat → Bool) :
    ((∀ i, i < 10 → conecta i = false) →
      (initDB conecta).1 = false ∧
      intentos (initDB conecta).2 = 10 ∧
      esperas (initDB conecta).2 = List.replicate 9 5000 ∧
      pasosDeRed (initDB conecta).2 = fallosYEsperas 9 ++ [Paso.getConnection]) ∧
    intentos (initDB conecta).2 ≤ 10 := by
  constructor
  · intro hf
    obtain ⟨h1, h2, h3, h4⟩ := initDBLoop_agotado conecta 9 0 rfl hf
    exact ⟨h1, h3, h4, h2⟩
  · exact initDBLoop_intentos_le conecta 10 0 (by simp [maxRetries])

/-- Witness of C4 on the backend that never answers. -/
theorem initDB_agota_reintentos_witness :
    (∀ i, i < 10 → (fun (_ : Nat) => false) i = false) ∧
    (initDB (fun _ => false)).1 = false ∧
    intentos (initDB (fun _ => false)).2 = 10 ∧
    esperas (initDB (fun _ => false)).2 = List.replicate 9 5000 ∧
    pasosDeRed (initDB (fun _ => false)).2 = fallosYEsperas 9 ++ [Paso.getConnection] :=
  ⟨fun _ _ => rfl, (initDB_agota_reintentos (fun _ => false)).1 (fun _ _ => rfl)⟩

end Agenda
